import Mathlib

/-!
Verification of the real-time WebSocket client (`WebSocketService` in
`src/services/websocket.ts`) of the Tensera dashboard.

The service is shallowly embedded: its mutable private fields become a
`ServiceState` record, its methods become pure functions
`ServiceState → ServiceState` (or `… × List Effect` when the method logs,
sends frames, or invokes subscriber callbacks), and the browser runtime is
made explicit where the claims need it (`liveSockets` counts WebSocket
objects constructed and not yet closed; `pendingReconnects` counts
`setTimeout` reconnect callbacks registered and not yet fired — the source
stores no handle to them, so no code path can remove one except its firing).
Exceptions (`JSON.parse`, subscriber callbacks) are modelled with `Except`
and the source's `try`/`catch` blocks become `match`es on the result.
-/

set_option autoImplicit false

namespace Tensera

/-- Field `this.listeners : Map<string, Set<(data) => void>>`: an association list
from event-type key to the list of registered callback identities (callbacks
are identified by `Nat`; JS `Set` insertion order is modelled by appending
fresh elements, and `add` of a present element is the identity). -/
abbrev Registry : Type := List (String × List Nat)

/-- The `WebSocket.readyState` values. `OPEN` is rendered `opened` because `open`
is a Lean keyword. -/
inductive ReadyState
  | connecting
  | opened
  | closing
  | closed
deriving DecidableEq, Repr

/-- The `data` member of an inbound frame: the `symbol` field read by the
router, plus an opaque stand-in for the remaining payload fields. -/
structure MsgData where
  symbol : String
  payload : Nat
deriving DecidableEq, Repr

/-- An inbound `WebSocketMessage`: a string `type` tag and a `data` member. -/
structure WSMessage where
  type : String
  data : MsgData
deriving DecidableEq, Repr

/-- Outbound control frames built by `send(...)` call sites. -/
inductive OutFrame
  | subscribeMsg (channel : String) (symbol : Option String)
  | subscribeListMsg (channel : String) (symbols : List String)
  | unsubscribeMsg (channel : String) (symbol : Option String)
  | ping
deriving DecidableEq, Repr

/-- Observable effects of a method call: console logs, frames written to the
transport, and subscriber-callback invocations (with the data delivered). -/
inductive Effect
  | logInfo (s : String)
  | logWarn (s : String)
  | logError (s : String)
  | sendFrame (f : OutFrame)
  | invoke (eventType : String) (cb : Nat) (data : MsgData)
deriving DecidableEq, Repr

/-- The private fields of `WebSocketService`, plus the two runtime counters
described in the module docstring. `ws` is `none` when the field is `null`,
otherwise it carries the current socket's `readyState`. `heartbeatInterval`
is `true` when a heartbeat interval is registered. -/
structure ServiceState where
  ws : Option ReadyState
  reconnectAttempts : Nat
  heartbeatInterval : Bool
  listeners : Registry
  liveSockets : Nat
  pendingReconnects : Nat
deriving DecidableEq, Repr

/-- Field `private maxReconnectAttempts = 5`. -/
def maxReconnectAttempts : Nat := 5

/-- Field `private reconnectDelay = 1000`. -/
def reconnectDelay : Nat := 1000

/-- Method `handleReconnect()` (lines 244-259), as a pure step on the
`reconnectAttempts` counter: returns the new counter value, and `some delay`
when a reconnect `setTimeout` is scheduled (`delay = reconnectDelay *
2^(reconnectAttempts - 1)` after the increment), or `none` when the ceiling
has been reached and nothing is scheduled. -/
def handleReconnect (reconnectAttempts : Nat) : Nat × Option Nat :=
  if reconnectAttempts < maxReconnectAttempts then
    let a := reconnectAttempts + 1
    (a, some (reconnectDelay * 2 ^ (a - 1)))
  else
    (reconnectAttempts, none)

/-- A run of `n` consecutive connection losses (each loss invokes
`handleReconnect`) starting from a given `reconnectAttempts` value, with no
intervening successful open: the list of scheduled delays in order, and the
final counter. -/
def lossRun : Nat → Nat → List Nat × Nat
  | 0, a => ([], a)
  | n + 1, a =>
    match handleReconnect a with
    | (a2, some d) =>
      let r := lossRun n a2
      (d :: r.1, r.2)
    | (a2, none) =>
      lossRun n a2

/-- The `onopen` handler installed by `connect()` (lines 30-35):
logs, resets `reconnectAttempts` to 0, and starts the heartbeat. The handler
fires on the current socket, whose `readyState` is now `OPEN`. No frame is
written to the transport here. -/
def onopen (st : ServiceState) : ServiceState × List Effect :=
  ({ st with
      ws := some ReadyState.opened
      reconnectAttempts := 0
      heartbeatInterval := true },
   [Effect.logInfo "WebSocket connected"])

/-- C1: with baseDelay 1000, maxDelay 30000 and ceiling 5, five consecutive
losses from a reset counter schedule delays 1000, 2000, 4000, 8000, 16000 and
leave the counter at the ceiling; a sixth loss schedules nothing (the policy
is exhausted); every delay scheduled below the ceiling equals
min(baseDelay * 2^attempt, maxDelay) for the attempt counter as it stood
before the increment; and a successful open resets the counter to 0. -/
theorem reconnect_backoff_spec :
    lossRun 5 0 = ([1000, 2000, 4000, 8000, 16000], 5)
    ∧ (handleReconnect (lossRun 5 0).2).2 = none
    ∧ lossRun 6 0 = ([1000, 2000, 4000, 8000, 16000], 5)
    ∧ (∀ a, a < maxReconnectAttempts →
        (handleReconnect a).2 = some (min (reconnectDelay * 2 ^ a) 30000))
    ∧ (∀ st : ServiceState, ((onopen st).1).reconnectAttempts = 0) :=
  ⟨by decide, by decide, by decide, by decide, fun _ => rfl⟩

/-- Lookup `this.listeners.get(key)`: first (unique, by construction) entry for the
key, if present. -/
def lookupSet : Registry → String → Option (List Nat)
  | [], _ => none
  | (k, v) :: rest, t => if k = t then some v else lookupSet rest t

/-- The callbacks registered under a topic (empty when the topic is absent). -/
def cbsOf (r : Registry) (t : String) : List Nat :=
  (lookupSet r t).getD []

/-- JS `Set.add`: a no-op when the element is already present, otherwise appended
(JS sets preserve insertion order). -/
def setAdd (l : List Nat) (c : Nat) : List Nat :=
  if c ∈ l then l else l ++ [c]

/-- JS `Set.delete`: removes the element. -/
def setDel (l : List Nat) (c : Nat) : List Nat :=
  l.filter (fun x => x ≠ c)

/-- The registry mutation of `addEventListener(eventType, callback)`
(lines 178-184): create an empty set for a missing key, then `add` the
callback to the key's set. -/
def subscribeReg : Registry → String → Nat → Registry
  | [], t, c => [(t, [c])]
  | (k, v) :: rest, t, c =>
    if k = t then (k, setAdd v c) :: rest
    else (k, v) :: subscribeReg rest t c

/-- The unsubscribe closure returned by `addEventListener` (lines 186-194):
if the key is present, `delete` the callback, and drop the key entirely when
its set becomes empty. -/
def unsubscribeReg : Registry → String → Nat → Registry
  | [], _, _ => []
  | (k, v) :: rest, t, c =>
    if k = t then
      let v2 := setDel v c
      if v2 = [] then rest else (k, v2) :: rest
    else (k, v) :: unsubscribeReg rest t c

/-- One registry operation: a `subscribe(topic, cb)` registration or the
invocation of the matching unsubscribe handle. -/
inductive RegOp
  | sub (t : String) (c : Nat)
  | unsub (t : String) (c : Nat)

/-- Apply one operation to the registry. -/
def applyOp (r : Registry) : RegOp → Registry
  | RegOp.sub t c => subscribeReg r t c
  | RegOp.unsub t c => unsubscribeReg r t c

/-- Apply a sequence of operations, left to right. -/
def applyOps (r : Registry) (ops : List RegOp) : Registry :=
  ops.foldl applyOp r

/-- Every entry of the registry map holds a nonempty callback set. -/
def regValuesNonempty (r : Registry) : Prop :=
  ∀ p ∈ r, p.2 ≠ []

theorem setAdd_ne_nil (l : List Nat) (c : Nat) : setAdd l c ≠ [] := by
  unfold setAdd
  split
  · rename_i h
    exact List.ne_nil_of_mem h
  · simp

theorem mem_setAdd_self (l : List Nat) (c : Nat) : c ∈ setAdd l c := by
  unfold setAdd
  split
  · assumption
  · simp

theorem setAdd_of_mem {l : List Nat} {c : Nat} (h : c ∈ l) : setAdd l c = l := by
  unfold setAdd
  simp [h]

theorem setAdd_idem (l : List Nat) (c : Nat) :
    setAdd (setAdd l c) c = setAdd l c :=
  setAdd_of_mem (mem_setAdd_self l c)

theorem subscribeReg_preserves {r : Registry} (h : regValuesNonempty r)
    (t : String) (c : Nat) : regValuesNonempty (subscribeReg r t c) := by
  induction r with
  | nil =>
    intro p hp
    simp [subscribeReg] at hp
    subst hp
    simp
  | cons kv rest ih =>
    obtain ⟨k, v⟩ := kv
    have hrest : regValuesNonempty rest := fun p hp => h p (List.mem_cons_of_mem _ hp)
    have hv : v ≠ [] := h (k, v) (List.mem_cons_self _ _)
    intro p hp
    simp only [subscribeReg] at hp
    split at hp
    · rcases List.mem_cons.mp hp with hp1 | hp2
      · subst hp1
        exact setAdd_ne_nil v c
      · exact hrest p hp2
    · rcases List.mem_cons.mp hp with hp1 | hp2
      · subst hp1
        exact hv
      · exact ih hrest p hp2

theorem unsubscribeReg_preserves {r : Registry} (h : regValuesNonempty r)
    (t : String) (c : Nat) : regValuesNonempty (unsubscribeReg r t c) := by
  induction r with
  | nil =>
    intro p hp
    simp [unsubscribeReg] at hp
  | cons kv rest ih =>
    obtain ⟨k, v⟩ := kv
    have hrest : regValuesNonempty rest := fun p hp => h p (List.mem_cons_of_mem _ hp)
    intro p hp
    simp only [unsubscribeReg] at hp
    split at hp
    · split at hp
      · exact hrest p hp
      · rcases List.mem_cons.mp hp with hp1 | hp2
        · subst hp1
          assumption
        · exact hrest p hp2
    · rcases List.mem_cons.mp hp with hp1 | hp2
      · subst hp1
        exact h (k, v) (List.mem_cons_self _ _)
      · exact ih hrest p hp2

theorem applyOps_preserves (ops : List RegOp) :
    ∀ r : Registry, regValuesNonempty r → regValuesNonempty (applyOps r ops) := by
  induction ops with
  | nil => intro r h; exact h
  | cons op rest ih =>
    intro r h
    have h2 : regValuesNonempty (applyOp r op) := by
      cases op with
      | sub t c => exact subscribeReg_preserves h t c
      | unsub t c => exact unsubscribeReg_preserves h t c
    exact ih (applyOp r op) h2

theorem lookupSet_mem {r : Registry} {t : String} {v : List Nat}
    (h : lookupSet r t = some v) : (t, v) ∈ r := by
  induction r with
  | nil => simp [lookupSet] at h
  | cons kv rest ih =>
    obtain ⟨k, w⟩ := kv
    simp only [lookupSet] at h
    split at h
    · rename_i hk
      subst hk
      cases h
      exact List.mem_cons_self _ _
    · exact List.mem_cons_of_mem _ (ih h)

theorem present_iff_nonempty {r : Registry} (h : regValuesNonempty r)
    (t : String) : (lookupSet r t).isSome ↔ cbsOf r t ≠ [] := by
  unfold cbsOf
  cases hl : lookupSet r t with
  | none => simp
  | some v =>
    simp only [Option.isSome_some, Option.getD_some, true_iff]
    exact h (t, v) (lookupSet_mem hl)

theorem subscribeReg_idem (r : Registry) (t : String) (c : Nat) :
    subscribeReg (subscribeReg r t c) t c = subscribeReg r t c := by
  induction r with
  | nil => simp [subscribeReg, setAdd]
  | cons kv rest ih =>
    obtain ⟨k, v⟩ := kv
    by_cases hk : k = t
    · subst hk
      simp [subscribeReg, setAdd_idem]
    · simp [subscribeReg, hk, ih]

/-- C8: starting from an empty registry, after any sequence of subscribe and
unsubscribe operations a topic key is present in the map iff its callback set
is nonempty; and registering the same callback twice under the same topic
leaves the registry exactly as registering it once (per-topic collections are
sets). -/
theorem registry_invariant_and_idempotence :
    (∀ (ops : List RegOp) (t : String),
      (lookupSet (applyOps [] ops) t).isSome ↔ cbsOf (applyOps [] ops) t ≠ [])
    ∧ (∀ (r : Registry) (t : String) (c : Nat),
      subscribeReg (subscribeReg r t c) t c = subscribeReg r t c) :=
  ⟨fun ops t =>
    present_iff_nonempty (applyOps_preserves ops [] (by intro p hp; simp at hp)) t,
   subscribeReg_idem⟩

/-- The state mutation of `connect()` (lines 25-60) at call time:
`this.ws = new WebSocket(this.url)` runs unconditionally — there is no guard
on the current state — so a fresh socket (readyState `CONNECTING`) is
constructed and the field overwritten; the previously referenced socket, if
any, is not closed. The handlers installed on the new socket are modelled
separately (`onopen`, `onmessage`, `onclose`). -/
def connect (st : ServiceState) : ServiceState :=
  { st with
      ws := some ReadyState.connecting
      liveSockets := st.liveSockets + 1 }

/-- Method `disconnect()` (lines 63-70): `close()` the current socket if the field
is non-null (already-closed sockets are unaffected) and null the field, stop
the heartbeat, and `this.listeners.clear()`. No `clearTimeout` call exists
anywhere in the class, so `pendingReconnects` is untouched. -/
def disconnect (st : ServiceState) : ServiceState :=
  let st1 :=
    match st.ws with
    | some rs =>
      { st with
          ws := none
          liveSockets :=
            if rs = ReadyState.closed then st.liveSockets
            else st.liveSockets - 1 }
    | none => st
  { st1 with heartbeatInterval := false, listeners := ([] : Registry) }

/-- Method `handleReconnect()` (lines 244-259) acting on the service state: on a
loss below the ceiling it bumps the counter, logs, and registers a
`setTimeout` whose callback will call `connect()`; at the ceiling it only
logs an error. -/
def handleReconnectSt (st : ServiceState) : ServiceState × List Effect :=
  match handleReconnect st.reconnectAttempts with
  | (a, some _) =>
    ({ st with reconnectAttempts := a, pendingReconnects := st.pendingReconnects + 1 },
     [Effect.logInfo "Attempting to reconnect"])
  | (a, none) =>
    ({ st with reconnectAttempts := a },
     [Effect.logError "Max reconnection attempts reached"])

/-- The firing of one pending reconnect `setTimeout` (lines 251-255): its
callback invokes `this.connect()`. -/
def fireReconnectTimer (st : ServiceState) : ServiceState :=
  if st.pendingReconnects = 0 then st
  else connect { st with pendingReconnects := st.pendingReconnects - 1 }

/-- The `onclose` handler installed by `connect()` (lines 46-50): logs,
stops the heartbeat, and runs `handleReconnect()`. -/
def onclose (st : ServiceState) : ServiceState × List Effect :=
  handleReconnectSt { st with ws := some ReadyState.closed, heartbeatInterval := false }

/-- Method `send(message)` (lines 72-79): writes the frame only when the socket
exists and its readyState is `OPEN`, otherwise logs a warning. -/
def send (st : ServiceState) (f : OutFrame) : List Effect :=
  match st.ws with
  | some ReadyState.opened => [Effect.sendFrame f]
  | _ => [Effect.logWarn "WebSocket is not connected"]

/-- Method `subscribeToStock(symbol, callback)` (lines 82-93): sends a subscribe
control message (subject to `send`'s connected check) and registers the
callback under `stock_update_<symbol>`. -/
def subscribeToStock (st : ServiceState) (symbol : String) (callback : Nat) :
    ServiceState × List Effect :=
  let effs := send st (OutFrame.subscribeMsg "stock_updates" (some symbol))
  ({ st with listeners := subscribeReg st.listeners ("stock_update_" ++ symbol) callback },
   effs)

/-- The number of subscribe control frames among a list of effects. -/
def countSubscribes (effs : List Effect) : Nat :=
  (effs.filter fun e =>
    match e with
    | Effect.sendFrame (OutFrame.subscribeMsg _ _) => true
    | Effect.sendFrame (OutFrame.subscribeListMsg _ _) => true
    | _ => false).length

/-- C2 counterexample: with exactly one topic registered (N = 1), a
successful (re)connect's `onopen` handler sends 0 subscribe control
messages, not 1 — nothing in `connect()`/`onopen` replays the registry. -/
theorem reconnect_resubscribe_counterexample :
    countSubscribes (onopen
      (⟨some ReadyState.connecting, 1, false, [("stock_update_AAPL", [0])], 1, 0⟩
        : ServiceState)).2 = 0
    ∧ ¬ countSubscribes (onopen
      (⟨some ReadyState.connecting, 1, false, [("stock_update_AAPL", [0])], 1, 0⟩
        : ServiceState)).2 = 1 := by
  constructor
  · rfl
  · decide

/-- C2 amended: a successful (re)connect sends no subscribe control messages
at all, whatever the registered topics — the `onopen` handler only logs,
resets the attempt counter and starts the heartbeat; subscribe frames are
sent only at `subscribeTo*` call time. -/
theorem onopen_sends_no_subscribe :
    ∀ st : ServiceState,
      countSubscribes (onopen st).2 = 0
      ∧ ((onopen st).1.listeners = st.listeners) :=
  fun _ => ⟨rfl, rfl⟩

/-- C4: the code contradicts the claim. Starting from a state where one
reconnect is scheduled (a backoff timer pending, as after a connection
loss), `disconnect()` leaves the timer pending — the class stores no handle
to the `setTimeout`, so nothing cancels it — and when it fires it calls
`connect()`, constructing a new transport with no manual `connect()` call. -/
theorem disconnect_zombie_reconnect :
    (disconnect
      (⟨some ReadyState.closed, 1, false, [("stock_update", [0])], 0, 1⟩
        : ServiceState)).pendingReconnects = 1
    ∧ (fireReconnectTimer (disconnect
      (⟨some ReadyState.closed, 1, false, [("stock_update", [0])], 0, 1⟩
        : ServiceState))).ws = some ReadyState.connecting
    ∧ (fireReconnectTimer (disconnect
      (⟨some ReadyState.closed, 1, false, [("stock_update", [0])], 0, 1⟩
        : ServiceState))).liveSockets = 1 := by
  refine ⟨rfl, rfl, rfl⟩

/-- C5 counterexample: `connect()` is not a no-op while `Connecting` or
`Open`. From a fresh closed state, `connect()` yields a `Connecting` state;
calling `connect()` again changes the state and leaves two constructed,
unclosed sockets — likewise from an `Open` state. -/
theorem connect_noop_counterexample :
    ((connect (⟨none, 0, false, [], 0, 0⟩ : ServiceState)).ws
        = some ReadyState.connecting)
    ∧ connect (connect (⟨none, 0, false, [], 0, 0⟩ : ServiceState))
        ≠ connect (⟨none, 0, false, [], 0, 0⟩ : ServiceState)
    ∧ (connect (connect (⟨none, 0, false, [], 0, 0⟩ : ServiceState))).liveSockets = 2
    ∧ connect (⟨some ReadyState.opened, 0, true, [], 1, 0⟩ : ServiceState)
        ≠ (⟨some ReadyState.opened, 0, true, [], 1, 0⟩ : ServiceState) := by
  refine ⟨rfl, by decide, rfl, by decide⟩

/-- C5 amended: `connect()` is never a no-op — whatever the current state
(including `Connecting` and `Open`) it constructs a fresh transport, leaving
the previous one unclosed, so the count of live sockets always grows and
more than one physical transport can be open at a time. -/
theorem connect_unconditional :
    ∀ st : ServiceState,
      (connect st).ws = some ReadyState.connecting
      ∧ (connect st).liveSockets = st.liveSockets + 1
      ∧ (connect st).listeners = st.listeners :=
  fun _ => ⟨rfl, rfl, rfl⟩

/-- C9 counterexample: `disconnect()` does not leave the registered-topic
set unchanged — with one registered topic and callback, the registry is
empty afterwards (`this.listeners.clear()`). -/
theorem disconnect_registry_counterexample :
    ((disconnect
      (⟨some ReadyState.opened, 0, true, [("market_status", [0])], 1, 0⟩
        : ServiceState)).listeners = ([] : Registry))
    ∧ ¬ ((disconnect
      (⟨some ReadyState.opened, 0, true, [("market_status", [0])], 1, 0⟩
        : ServiceState)).listeners = [("market_status", [0])]) := by
  refine ⟨rfl, by decide⟩

/-- C9 amended: `disconnect()` closes the socket, nulls the field, stops the
heartbeat, and clears the entire listener registry — the desired-topic set
is lost, so a later manual `connect()` has nothing to restore (and sends no
subscribe messages anyway). -/
theorem disconnect_clears_everything :
    ∀ st : ServiceState,
      (disconnect st).listeners = ([] : Registry)
      ∧ (disconnect st).ws = none
      ∧ (disconnect st).heartbeatInterval = false := by
  intro st
  cases hw : st.ws <;> simp [disconnect, hw]

/-- A subscriber-callback environment: what each callback does when invoked
with a payload — it either returns (`ok`) or throws (`error`). -/
abbrev CallbackBehavior : Type := Nat → MsgData → Except String Unit

/-- Method `notifyListeners(eventType, data)` (lines 230-241): look the topic up;
for each registered callback, invoke it, and if it throws, catch and log —
iteration continues with the remaining callbacks. Returns the effect trace. -/
def notifyListeners (beh : CallbackBehavior) (listeners : Registry)
    (eventType : String) (data : MsgData) : List Effect :=
  match lookupSet listeners eventType with
  | none => []
  | some cbs =>
    cbs.flatMap fun c =>
      Effect.invoke eventType c data ::
        (match beh c data with
         | Except.ok _ => []
         | Except.error e => [Effect.logError ("Error in WebSocket callback: " ++ e)])

/-- Method `handleMessage(message)` (lines 198-227): switch on the `type` tag.
`stock_update` and `prediction_update` notify the category-wide key and then
the symbol-suffixed key; `market_status` notifies its single fixed key;
`error` logs; anything else logs a warning. -/
def handleMessage (beh : CallbackBehavior) (listeners : Registry)
    (message : WSMessage) : List Effect :=
  if message.type = "stock_update" then
    notifyListeners beh listeners "stock_update" message.data
      ++ notifyListeners beh listeners ("stock_update_" ++ message.data.symbol) message.data
  else if message.type = "prediction_update" then
    notifyListeners beh listeners "prediction_update" message.data
      ++ notifyListeners beh listeners ("prediction_update_" ++ message.data.symbol) message.data
  else if message.type = "market_status" then
    notifyListeners beh listeners "market_status" message.data
  else if message.type = "error" then
    [Effect.logError "WebSocket error message:"]
  else
    [Effect.logWarn "Unknown message type:"]

/-- The `onmessage` handler installed by `connect()` (lines 37-44):
`try { parse; handleMessage } catch { log }`. Decoding (`JSON.parse` plus
the cast to `WebSocketMessage`) is abstracted as a fallible `decode`
argument; the `catch` becomes the `error` branch. The service state is never
mutated on this path, and the function returns normally in every case. -/
def onmessage (decode : String → Except String WSMessage) (beh : CallbackBehavior)
    (st : ServiceState) (raw : String) : ServiceState × List Effect :=
  match decode raw with
  | Except.error _ => (st, [Effect.logError "Error parsing WebSocket message:"])
  | Except.ok m => (st, handleMessage beh st.listeners m)

theorem invoke_mem_notifyListeners (beh : CallbackBehavior) (r : Registry)
    (t' : String) (d' : MsgData) (t : String) (c : Nat) (d : MsgData) :
    Effect.invoke t c d ∈ notifyListeners beh r t' d'
      ↔ t = t' ∧ d = d' ∧ c ∈ cbsOf r t' := by
  unfold notifyListeners cbsOf
  cases hl : lookupSet r t' with
  | none => simp
  | some cbs =>
    simp only [Option.getD_some, List.mem_flatMap]
    constructor
    · rintro ⟨c2, hc2, hmem⟩
      cases hb : beh c2 d' <;> rw [hb] at hmem <;> simp at hmem
      · obtain ⟨ht, hc, hd⟩ := hmem
        exact ⟨ht, hd, hc ▸ hc2⟩
      · obtain ⟨ht, hc, hd⟩ := hmem
        exact ⟨ht, hd, hc ▸ hc2⟩
    · rintro ⟨rfl, rfl, hc⟩
      exact ⟨c, hc, List.mem_cons_self _ _⟩

theorem logError_mem_notifyListeners (beh : CallbackBehavior) (r : Registry)
    (t : String) (d : MsgData) (c : Nat) (e : String)
    (hc : c ∈ cbsOf r t) (hb : beh c d = Except.error e) :
    Effect.logError ("Error in WebSocket callback: " ++ e)
      ∈ notifyListeners beh r t d := by
  unfold notifyListeners
  unfold cbsOf at hc
  cases hl : lookupSet r t with
  | none => rw [hl] at hc; simp at hc
  | some cbs =>
    rw [hl] at hc
    simp only [Option.getD_some] at hc
    simp only [List.mem_flatMap]
    exact ⟨c, hc, by rw [hb]; simp⟩

/-- C3: a well-formed `stock_update` frame carrying symbol `s` invokes
exactly the callbacks registered under the wildcard key `stock_update` and
those under the symbol key `stock_update_<s>` (each receiving the frame's
data), and no callback under any other key; a `market_status` frame invokes
exactly the callbacks under the single fixed `market_status` key. -/
theorem router_dispatch_exact :
    ∀ (beh : CallbackBehavior) (r : Registry) (s : String) (p : Nat)
      (t : String) (c : Nat) (d : MsgData),
      (Effect.invoke t c d ∈ handleMessage beh r ⟨"stock_update", ⟨s, p⟩⟩
        ↔ (t = "stock_update" ∨ t = "stock_update_" ++ s) ∧ c ∈ cbsOf r t ∧ d = ⟨s, p⟩)
      ∧ (Effect.invoke t c d ∈ handleMessage beh r ⟨"market_status", ⟨s, p⟩⟩
        ↔ t = "market_status" ∧ c ∈ cbsOf r t ∧ d = ⟨s, p⟩) := by
  intro beh r s p t c d
  have e1 : handleMessage beh r ⟨"stock_update", ⟨s, p⟩⟩
      = notifyListeners beh r "stock_update" ⟨s, p⟩
        ++ notifyListeners beh r ("stock_update_" ++ s) ⟨s, p⟩ := rfl
  have e2 : handleMessage beh r ⟨"market_status", ⟨s, p⟩⟩
      = notifyListeners beh r "market_status" ⟨s, p⟩ := rfl
  constructor
  · rw [e1, List.mem_append, invoke_mem_notifyListeners, invoke_mem_notifyListeners]
    constructor
    · rintro (⟨rfl, rfl, hc⟩ | ⟨rfl, rfl, hc⟩)
      · exact ⟨Or.inl rfl, hc, rfl⟩
      · exact ⟨Or.inr rfl, hc, rfl⟩
    · rintro ⟨rfl | rfl, hc, rfl⟩
      · exact Or.inl ⟨rfl, rfl, hc⟩
      · exact Or.inr ⟨rfl, rfl, hc⟩
  · rw [e2, invoke_mem_notifyListeners]
    constructor
    · rintro ⟨rfl, rfl, hc⟩
      exact ⟨rfl, hc, rfl⟩
    · rintro ⟨rfl, hc, rfl⟩
      exact ⟨rfl, rfl, hc⟩

/-- C6: an inbound frame that fails to decode is logged and dropped — the
handler returns normally with the service state unchanged (the connection is
not touched) and its only effect is the error log; no callback is invoked. -/
theorem malformed_frame_dropped :
    ∀ (decode : String → Except String WSMessage) (beh : CallbackBehavior)
      (st : ServiceState) (raw : String) (e : String),
      decode raw = Except.error e →
      onmessage decode beh st raw
        = (st, [Effect.logError "Error parsing WebSocket message:"]) := by
  intro decode beh st raw e h
  unfold onmessage
  rw [h]

/-- Witness for C6 at a concrete malformed frame. -/
theorem malformed_frame_dropped_witness :
    (fun _ : String => (Except.error "SyntaxError" : Except String WSMessage)) "not json"
        = Except.error "SyntaxError"
    ∧ onmessage (fun _ => Except.error "SyntaxError") (fun _ _ => Except.ok ())
        (⟨some ReadyState.opened, 0, true, [("stock_update", [0])], 1, 0⟩ : ServiceState)
        "not json"
      = ((⟨some ReadyState.opened, 0, true, [("stock_update", [0])], 1, 0⟩ : ServiceState),
         [Effect.logError "Error parsing WebSocket message:"]) :=
  ⟨rfl, malformed_frame_dropped _ _ _ _ "SyntaxError" rfl⟩

/-- C7: when a callback registered under a topic throws on a dispatched
message, the exception is caught and logged, and every other callback
registered under the same topic is still invoked with the same data. -/
theorem callback_throw_isolated :
    ∀ (beh : CallbackBehavior) (r : Registry) (t : String) (d : MsgData)
      (c1 c2 : Nat) (e : String),
      beh c1 d = Except.error e →
      c1 ∈ cbsOf r t →
      c2 ∈ cbsOf r t →
      Effect.invoke t c2 d ∈ notifyListeners beh r t d
      ∧ Effect.logError ("Error in WebSocket callback: " ++ e)
          ∈ notifyListeners beh r t d := by
  intro beh r t d c1 c2 e hb h1 h2
  exact ⟨(invoke_mem_notifyListeners beh r t d t c2 d).mpr ⟨rfl, rfl, h2⟩,
    logError_mem_notifyListeners beh r t d c1 e h1 hb⟩

/-- Witness for C7: callback 0 throws, callback 1 on the same topic is still
invoked with the same data, and the throw is logged. -/
theorem callback_throw_isolated_witness :
    (fun c (_ : MsgData) =>
        if c = 0 then (Except.error "boom" : Except String Unit) else Except.ok ())
        0 ⟨"AAPL", 7⟩ = Except.error "boom"
    ∧ 0 ∈ cbsOf [("stock_update", [0, 1])] "stock_update"
    ∧ 1 ∈ cbsOf [("stock_update", [0, 1])] "stock_update"
    ∧ (Effect.invoke "stock_update" 1 ⟨"AAPL", 7⟩
        ∈ notifyListeners
          (fun c _ => if c = 0 then Except.error "boom" else Except.ok ())
          [("stock_update", [0, 1])] "stock_update" ⟨"AAPL", 7⟩
      ∧ Effect.logError ("Error in WebSocket callback: " ++ "boom")
        ∈ notifyListeners
          (fun c _ => if c = 0 then Except.error "boom" else Except.ok ())
          [("stock_update", [0, 1])] "stock_update" ⟨"AAPL", 7⟩) :=
  ⟨rfl, by decide, by decide,
   callback_throw_isolated
     (fun c _ => if c = 0 then Except.error "boom" else Except.ok ())
     [("stock_update", [0, 1])] "stock_update" ⟨"AAPL", 7⟩ 0 1 "boom"
     rfl (by decide) (by decide)⟩

/-- C10: a frame that decodes but whose `type` is none of `stock_update`,
`prediction_update`, `market_status`, `error` falls to the `default` branch:
the handler logs one warning, invokes no callback, and returns normally. -/
theorem unknown_type_warn_only :
    ∀ (beh : CallbackBehavior) (r : Registry) (m : WSMessage),
      m.type ≠ "stock_update" →
      m.type ≠ "prediction_update" →
      m.type ≠ "market_status" →
      m.type ≠ "error" →
      handleMessage beh r m = [Effect.logWarn "Unknown message type:"] := by
  intro beh r m h1 h2 h3 h4
  simp [handleMessage, h1, h2, h3, h4]

/-- Witness for C10 at a concrete unrecognized frame type. -/
theorem unknown_type_warn_only_witness :
    (("pong" : String) ≠ "stock_update"
      ∧ ("pong" : String) ≠ "prediction_update"
      ∧ ("pong" : String) ≠ "market_status"
      ∧ ("pong" : String) ≠ "error")
    ∧ handleMessage (fun _ _ => Except.ok ()) [("stock_update", [0])]
        ⟨"pong", ⟨"AAPL", 7⟩⟩
      = [Effect.logWarn "Unknown message type:"] :=
  ⟨⟨by decide, by decide, by decide, by decide⟩,
   unknown_type_warn_only (fun _ _ => Except.ok ()) [("stock_update", [0])]
     ⟨"pong", ⟨"AAPL", 7⟩⟩ (by decide) (by decide) (by decide) (by decide)⟩

end Tensera
